import Mathlib

/-!
Shallow embedding of the `quant-backtest` repository's portfolio simulators
(`src/strategies/tqqq_strategy.py`, `tqqq_strategy_v2.py`, `tqqq_strategy_v3.py`)
and the indicator helpers the claims touch.

Modelling conventions:
* Python floats are modelled as exact rationals (`ℚ`); the decimal literals of
  the source (`0.97`, `-0.05`, `1e-10`, ...) are written as the rationals they
  denote.
* A pandas frame column is modelled as a total function `ℕ → ℚ` (or `ℕ → Bool`
  for the signal columns) together with the frame length `len`; `iloc[i]`
  becomes application at `i`, and `iloc[-1]` application at `len - 1`.
* Python `int(x)` (truncation toward zero) is `pyInt`, and float floor
  division `a // b` followed by `int` is `⌊a / b⌋`.
* `for i in range(a, b)` becomes a structural recursion over `List.range' a (b - a)`.
-/

namespace QuantBacktest

/-- Python `int()` on a real number: truncation toward zero. -/
def pyInt (x : ℚ) : ℤ := if 0 ≤ x then ⌊x⌋ else ⌈x⌉

/-- `'buy' if buy_signal else ('sell' if sell_signal else 'hold')`, the signal
field written into every history record. -/
def signalOf (buy sell : Bool) : String :=
  if buy then "buy" else if sell then "sell" else "hold"

/-- `calculate_transaction_costs` of variants 2 and 3:
`price*shares*commission + price*shares*slippage`. -/
def transaction_costs (commission slippage price : ℚ) (shares : ℤ) : ℚ :=
  price * shares * commission + price * shares * slippage

/-! ### Variant 1: `TQQQStrategy` (`src/strategies/tqqq_strategy.py`) -/

/-- The columns of variant 1's frame that `TQQQStrategy.backtest` reads:
`open`, `close` and the two signal columns produced by `generate_signals`. -/
structure V1Data where
  len : ℕ
  open_ : ℕ → ℚ
  close : ℕ → ℚ
  buy_signal : ℕ → Bool
  sell_signal : ℕ → Bool

/-- The loop-carried state of `TQQQStrategy.backtest`: `cash` and `position`. -/
structure V1State where
  cash : ℚ
  position : ℤ
deriving DecidableEq

/-- One history record of variant 1. -/
structure V1Row where
  date : ℕ
  cash : ℚ
  position : ℤ
  portfolio_value : ℚ
  close : ℚ
  signal : String
deriving DecidableEq

/-- One iteration of the `for i in range(7, len(self.data)-2)` loop of
`TQQQStrategy.backtest`: buy all-in at 97% of total value at the next open on a
Buy signal while flat, sell everything at the next open on a Sell signal while
long, then append the history record. -/
def v1step (d : V1Data) (i : ℕ) (s : V1State) : V1State × V1Row :=
  let current_price := d.close i
  let next_open := d.open_ (i + 1)
  let total_value := s.cash + s.position * current_price
  let s' : V1State :=
    if d.buy_signal i ∧ s.position = 0 then
      let position : ℤ := ⌊total_value * (97 / 100) / next_open⌋
      { cash := s.cash - position * next_open, position := position }
    else if d.sell_signal i ∧ 0 < s.position then
      { cash := s.cash + s.position * next_open, position := 0 }
    else s
  (s', { date := i, cash := s'.cash, position := s'.position,
         portfolio_value := s'.cash + s'.position * current_price,
         close := current_price,
         signal := signalOf (d.buy_signal i) (d.sell_signal i) })

/-- The backtest loop of variant 1 over a list of bar indices. -/
def v1loop (d : V1Data) : List ℕ → V1State → V1State × List V1Row
  | [], s => (s, [])
  | i :: is, s =>
    ((v1loop d is (v1step d i s).1).1, (v1step d i s).2 :: (v1loop d is (v1step d i s).1).2)

/-- The indices `range(7, len(self.data)-2)` processed by variant 1. -/
def v1indices (d : V1Data) : List ℕ := List.range' 7 (d.len - 2 - 7)

/-- `TQQQStrategy.backtest`: the emitted history. -/
def v1backtest (d : V1Data) (initial_cash : ℚ) : List V1Row :=
  (v1loop d (v1indices d) { cash := initial_cash, position := 0 }).2

/-! ### Variant 2: `TQQQStrategyV2` (`src/strategies/tqqq_strategy_v2.py`) -/

/-- The numeric parameters set in `TQQQStrategyV2.__init__`. -/
structure V2Params where
  buy_threshold : ℚ
  sell_threshold : ℚ
  max_position : ℚ
  stop_loss : ℚ
  trailing_stop : ℚ
  commission : ℚ
  slippage : ℚ
  vol_threshold : ℚ

/-- The parameter values hard-coded in `TQQQStrategyV2.__init__`
(note `stop_loss = -0.05` is stored negated). -/
def v2defaults : V2Params :=
  { buy_threshold := 5 / 1000, sell_threshold := -(8 / 1000), max_position := 7 / 10,
    stop_loss := -(5 / 100), trailing_stop := 8 / 100, commission := 3 / 10000,
    slippage := 2 / 10000, vol_threshold := 25 / 1000 }

/-- The columns of variant 2's frame that `TQQQStrategyV2.backtest` reads. -/
structure V2Data where
  len : ℕ
  close : ℕ → ℚ
  volatility : ℕ → ℚ
  buy_signal : ℕ → Bool
  sell_signal : ℕ → Bool

/-- The loop-carried state of `TQQQStrategyV2.backtest`. -/
structure V2State where
  cash : ℚ
  position : ℤ
  highest_price : ℚ
deriving DecidableEq

/-- One history record of variant 2. -/
structure V2Row where
  date : ℕ
  cash : ℚ
  position : ℤ
  portfolio_value : ℚ
  close : ℚ
  volatility : ℚ
  signal : String
deriving DecidableEq

/-- `TQQQStrategyV2.calculate_position_size`: the volatility-adjusted position
fraction `max_position * max(0.3, 1 - volatility/(vol_threshold*1.5))` (its
`cash` and `price` arguments are unused by the source). -/
def v2position_size (P : V2Params) (volatility : ℚ) : ℚ :=
  P.max_position * max (3 / 10) (1 - volatility / (P.vol_threshold * (3 / 2)))

/-- The stop section of `TQQQStrategyV2.backtest` (the `if position > 0:` block):
update the highest price, then liquidate everything at the current close minus
transaction costs when the one-bar return `close[i]/close[i-1] - 1` is below
`stop_loss` or the close is below `highest*(1 - trailing_stop)`. -/
def v2stops (P : V2Params) (d : V2Data) (i : ℕ) (s : V2State) : V2State :=
  if 0 < s.position then
    let highest_price := max s.highest_price (d.close i)
    let position_return := d.close i / d.close (i - 1) - 1
    if position_return < P.stop_loss ∨
        d.close i < highest_price * (1 - P.trailing_stop) then
      { cash := s.cash + s.position * d.close i
          - transaction_costs P.commission P.slippage (d.close i) s.position,
        position := 0, highest_price := 0 }
    else { s with highest_price := highest_price }
  else s

/-- The buy/sell section of `TQQQStrategyV2.backtest`. `total_value` is the
value computed at the top of the bar, before the stop section ran. -/
def v2buySell (P : V2Params) (d : V2Data) (i : ℕ) (total_value : ℚ) (s : V2State) : V2State :=
  if d.buy_signal i ∧ s.position = 0 then
    let max_buy_value := total_value * v2position_size P (d.volatility i)
    let shares_to_buy : ℤ := ⌊max_buy_value / d.close i⌋
    if 0 < shares_to_buy then
      let total_cost := shares_to_buy * d.close i
        + transaction_costs P.commission P.slippage (d.close i) shares_to_buy
      if total_cost ≤ s.cash then
        { cash := s.cash - total_cost, position := shares_to_buy,
          highest_price := d.close i }
      else s
    else s
  else if d.sell_signal i ∧ 0 < s.position then
    { cash := s.cash + s.position * d.close i
        - transaction_costs P.commission P.slippage (d.close i) s.position,
      position := 0, highest_price := 0 }
  else s

/-- One iteration of the `for i in range(20, len(self.data))` loop of
`TQQQStrategyV2.backtest`: stop section, then buy/sell section, then the
history record. -/
def v2step (P : V2Params) (d : V2Data) (i : ℕ) (s : V2State) : V2State × V2Row :=
  let s2 := v2buySell P d i (s.cash + s.position * d.close i) (v2stops P d i s)
  (s2, { date := i, cash := s2.cash, position := s2.position,
         portfolio_value := s2.cash + s2.position * d.close i,
         close := d.close i, volatility := d.volatility i,
         signal := signalOf (d.buy_signal i) (d.sell_signal i) })

/-- The backtest loop of variant 2 over a list of bar indices. -/
def v2loop (P : V2Params) (d : V2Data) : List ℕ → V2State → V2State × List V2Row
  | [], s => (s, [])
  | i :: is, s =>
    ((v2loop P d is (v2step P d i s).1).1,
     (v2step P d i s).2 :: (v2loop P d is (v2step P d i s).1).2)

/-- The indices `range(20, len(self.data))` processed by variant 2. -/
def v2indices (d : V2Data) : List ℕ := List.range' 20 (d.len - 20)

/-- `TQQQStrategyV2.backtest`: the emitted history. -/
def v2backtest (P : V2Params) (d : V2Data) (initial_cash : ℚ) : List V2Row :=
  (v2loop P d (v2indices d) { cash := initial_cash, position := 0, highest_price := 0 }).2

/-! ### Variant 3: `TQQQStrategyV3` (`src/strategies/tqqq_strategy_v3.py`) -/

/-- The constructor parameters of `TQQQStrategyV3.__init__`
(here `stop_loss = 0.07` is stored positive and negated at the check). -/
structure V3Params where
  buy_threshold : ℚ
  sell_threshold : ℚ
  max_position : ℚ
  stop_loss : ℚ
  trailing_stop : ℚ
  commission : ℚ
  slippage : ℚ
  vol_threshold : ℚ
  partial_sell_ratio : ℚ
  partial_sell_gain : ℚ
  atr_period : ℕ
  atr_multiplier : ℚ

/-- The default parameter values of `TQQQStrategyV3.__init__`. -/
def v3defaults : V3Params :=
  { buy_threshold := 5 / 1000, sell_threshold := -(8 / 1000), max_position := 8 / 10,
    stop_loss := 7 / 100, trailing_stop := 10 / 100, commission := 3 / 10000,
    slippage := 2 / 10000, vol_threshold := 3 / 100, partial_sell_ratio := 4 / 10,
    partial_sell_gain := 3 / 100, atr_period := 14, atr_multiplier := 35 / 10 }

/-- The columns of variant 3's frame that `TQQQStrategyV3.backtest` and
`TQQQStrategyV3.calculate_position_size` read (the `ma_trend` and
`ma_long_trend` columns are pandas int columns). -/
structure V3Data where
  len : ℕ
  close : ℕ → ℚ
  volatility : ℕ → ℚ
  ATR : ℕ → ℚ
  rsi : ℕ → ℚ
  ma_trend : ℕ → ℤ
  ma_long_trend : ℕ → ℤ
  buy_signal : ℕ → Bool
  sell_signal : ℕ → Bool

/-- The loop-carried state of `TQQQStrategyV3.backtest`. -/
structure V3State where
  cash : ℚ
  position : ℤ
  avg_cost : ℚ
  highest_price : ℚ
  atr_stop_price : ℚ
deriving DecidableEq

/-- One history record of variant 3. -/
structure V3Row where
  date : ℕ
  cash : ℚ
  position : ℤ
  portfolio_value : ℚ
  close : ℚ
  volatility : ℚ
  ATR : ℚ
  rsi : ℚ
  signal : String
deriving DecidableEq

/-- `TQQQStrategyV3.calculate_position_size`: share count from
`cash * max_position * vol_adj * rsi_adj * trend_adj // price`, where the RSI
and trend adjustments read the LAST row of the whole frame
(`self.data['rsi'].iloc[-1]`, `self.data['ma_long_trend'].iloc[-1]`,
`self.data['ma_trend'].iloc[-1]`), not the current bar. -/
def v3position_size (P : V3Params) (d : V3Data) (cash price volatility : ℚ) : ℤ :=
  let vol_adj := max (4 / 10) (1 - volatility / (P.vol_threshold * (3 / 2)))
  let rsi := d.rsi (d.len - 1)
  let rsi_adj : ℚ :=
    if rsi < 30 ∨ 70 < rsi then 6 / 10
    else if 45 ≤ rsi ∧ rsi ≤ 65 then 1
    else 8 / 10
  let trend_adj : ℚ :=
    if d.ma_long_trend (d.len - 1) = 1 ∧ d.ma_trend (d.len - 1) = 1 then 12 / 10 else 1
  let max_buy_value := cash * (P.max_position * vol_adj * rsi_adj * trend_adj)
  ⌊max_buy_value / price⌋

/-- The update of `highest_price` and `atr_stop_price` done at the top of the
`if position > 0:` block of `TQQQStrategyV3.backtest`
(`atr_stop_price = current_price - atr_multiplier * current_atr`). -/
def v3longUpdate (P : V3Params) (s : V3State) (price atr : ℚ) : V3State :=
  { s with highest_price := max s.highest_price price,
           atr_stop_price := price - P.atr_multiplier * atr }

/-- The stop disjunction of `TQQQStrategyV3.backtest`, evaluated on the updated
state: fixed stop `close/avg_cost - 1 < -stop_loss`, trailing stop
`close < highest*(1 - trailing_stop)`, ATR stop `close < atr_stop_price`. -/
def v3should_stop (P : V3Params) (s : V3State) (price : ℚ) : Prop :=
  price / s.avg_cost - 1 < -P.stop_loss ∨
  price < s.highest_price * (1 - P.trailing_stop) ∨
  price < s.atr_stop_price

instance (P : V3Params) (s : V3State) (price : ℚ) : Decidable (v3should_stop P s price) := by
  unfold v3should_stop; infer_instance

/-- The full liquidation done when a stop trips: sell the whole position at the
current close minus transaction costs, reset `position`, `highest_price` and
`atr_stop_price` (the source leaves `avg_cost` alone). -/
def v3liquidate (P : V3Params) (s : V3State) (price : ℚ) : V3State :=
  { cash := s.cash + s.position * price
      - transaction_costs P.commission P.slippage price s.position,
    position := 0, avg_cost := s.avg_cost, highest_price := 0, atr_stop_price := 0 }

/-- The unrealized return against the average cost basis,
`(current_price - avg_cost) / avg_cost`. -/
def v3unrealized_pnl (s : V3State) (price : ℚ) : ℚ := (price - s.avg_cost) / s.avg_cost

/-- The partial-profit sell fraction
`min(0.8, partial_sell_ratio * (1 + unrealized_pnl))`. -/
def v3sell_ratio (P : V3Params) (unrealized_pnl : ℚ) : ℚ :=
  min (8 / 10) (P.partial_sell_ratio * (1 + unrealized_pnl))

/-- The share count of the partial sell,
`int(position * sell_ratio)` (Python truncation). -/
def v3shares_to_sell (P : V3Params) (s : V3State) (price : ℚ) : ℤ :=
  pyInt (s.position * v3sell_ratio P (v3unrealized_pnl s price))

/-- The partial profit-taking branch of `TQQQStrategyV3.backtest` (`elif
unrealized_pnl >= self.partial_sell_gain`): sell `shares_to_sell` at the close
minus transaction costs when positive; `avg_cost` is left unchanged. -/
def v3partial_sell (P : V3Params) (s : V3State) (price : ℚ) : V3State :=
  if P.partial_sell_gain ≤ v3unrealized_pnl s price then
    if 0 < v3shares_to_sell P s price then
      { s with
        cash := s.cash + v3shares_to_sell P s price * price
          - transaction_costs P.commission P.slippage price (v3shares_to_sell P s price),
        position := s.position - v3shares_to_sell P s price }
    else s
  else s

/-- The buy/sell section of `TQQQStrategyV3.backtest`: on a Buy signal while
flat, buy `calculate_position_size` shares when affordable, recording
`avg_cost`, `highest_price` and `atr_stop_price`; on a Sell signal while long,
liquidate everything at the close minus transaction costs. -/
def v3buySell (P : V3Params) (d : V3Data) (i : ℕ) (s : V3State) : V3State :=
  if d.buy_signal i ∧ s.position = 0 then
    let shares_to_buy := v3position_size P d s.cash (d.close i) (d.volatility i)
    if 0 < shares_to_buy then
      let total_cost := shares_to_buy * d.close i
        + transaction_costs P.commission P.slippage (d.close i) shares_to_buy
      if total_cost ≤ s.cash then
        { cash := s.cash - total_cost, position := shares_to_buy,
          avg_cost := d.close i, highest_price := d.close i,
          atr_stop_price := d.close i - P.atr_multiplier * d.ATR i }
      else s
    else s
  else if d.sell_signal i ∧ 0 < s.position then
    { s with
      cash := s.cash + s.position * d.close i
        - transaction_costs P.commission P.slippage (d.close i) s.position,
      position := 0, highest_price := 0, atr_stop_price := 0 }
  else s

/-- The history record of variant 3 at bar `i` for end-of-bar state `s`. -/
def v3row (d : V3Data) (i : ℕ) (s : V3State) : V3Row :=
  { date := i, cash := s.cash, position := s.position,
    portfolio_value := s.cash + s.position * d.close i,
    close := d.close i, volatility := d.volatility i, ATR := d.ATR i,
    rsi := d.rsi i, signal := signalOf (d.buy_signal i) (d.sell_signal i) }

/-- One iteration of the `for i in range(start_idx, len(self.data))` loop of
`TQQQStrategyV3.backtest`. A tripped stop executes `continue`: it skips the
buy/sell section AND the history append, so the bar emits no record (`none`). -/
def v3step (P : V3Params) (d : V3Data) (i : ℕ) (s : V3State) : V3State × Option V3Row :=
  if 0 < s.position then
    let s1 := v3longUpdate P s (d.close i) (d.ATR i)
    if v3should_stop P s1 (d.close i) then
      (v3liquidate P s1 (d.close i), none)
    else
      let s3 := v3buySell P d i (v3partial_sell P s1 (d.close i))
      (s3, some (v3row d i s3))
  else
    let s3 := v3buySell P d i s
    (s3, some (v3row d i s3))

/-- The backtest loop of variant 3 over a list of bar indices; a `continue`
bar contributes no history record. -/
def v3loop (P : V3Params) (d : V3Data) : List ℕ → V3State → V3State × List V3Row
  | [], s => (s, [])
  | i :: is, s =>
    match v3step P d i s with
    | (s', none) => v3loop P d is s'
    | (s', some r) => ((v3loop P d is s').1, r :: (v3loop P d is s').2)

/-- The start index `max(50, self.atr_period)` of variant 3. -/
def v3start (P : V3Params) : ℕ := max 50 P.atr_period

/-- The indices `range(max(50, atr_period), len(self.data))` processed by
variant 3. -/
def v3indices (P : V3Params) (d : V3Data) : List ℕ :=
  List.range' (v3start P) (d.len - v3start P)

/-- `TQQQStrategyV3.backtest`: the emitted history. -/
def v3backtest (P : V3Params) (d : V3Data) (initial_cash : ℚ) : List V3Row :=
  (v3loop P d (v3indices P d)
    { cash := initial_cash, position := 0, avg_cost := 0,
      highest_price := 0, atr_stop_price := 0 }).2

/-! ### Variant 3's signal generator (`TQQQStrategyV3.generate_signals`) -/

/-- The indicator columns `TQQQStrategyV3.generate_signals` reads (`ma_cross`,
`ma_trend`, `ma_long_trend` are the pandas int columns of `prepare_data`). -/
structure V3Indicators where
  ma_cross : ℕ → ℤ
  ma_trend : ℕ → ℤ
  ma_long_trend : ℕ → ℤ
  rsi : ℕ → ℚ
  volatility : ℕ → ℚ
  momentum : ℕ → ℚ
  momentum_20 : ℕ → ℚ

/-- `.astype(int)` on one boolean: 1 for true, 0 for false. -/
def b2i (p : Prop) [Decidable p] : ℤ := if p then 1 else 0

/-- The six scoring sub-conditions of `generate_signals`, summed. The first,
`ma_cross > ma_cross.shift(1)`, is false at bar 0 where `shift(1)` is NaN
(a pandas comparison against NaN is False). -/
def buy_score (P : V3Params) (D : V3Indicators) (i : ℕ) : ℤ :=
  b2i (0 < i ∧ D.ma_cross (i - 1) < D.ma_cross i) +
  b2i (D.ma_trend i = 1) +
  b2i (D.ma_long_trend i = 1) +
  b2i (45 < D.rsi i ∧ D.rsi i < 75) +
  b2i (D.volatility i < P.vol_threshold * (12 / 10)) +
  b2i (-(1 / 100) < D.momentum i ∧ 0 < D.momentum_20 i)

/-- `self.data['buy_signal'] = (buy_score >= 4)`. -/
def v3buy_signal (P : V3Params) (D : V3Indicators) (i : ℕ) : Bool :=
  decide (4 ≤ buy_score P D i)

/-! ### `calculate_rsi` (`src/strategies/tqqq_strategy_v3.py`) -/

/-- `series.diff()` at index `j`. -/
def rsi_delta (series : ℕ → ℚ) (j : ℕ) : ℚ := series j - series (j - 1)

/-- `delta.where(delta > 0, 0)`: the positive part of the one-bar change. -/
def rsi_gain (series : ℕ → ℚ) (j : ℕ) : ℚ :=
  if 0 < rsi_delta series j then rsi_delta series j else 0

/-- `-delta.where(delta < 0, 0)`: the magnitude of a negative one-bar change. -/
def rsi_loss (series : ℕ → ℚ) (j : ℕ) : ℚ :=
  if rsi_delta series j < 0 then -(rsi_delta series j) else 0

/-- `rolling(window).mean()` at index `i`: the mean over the window
`i - window + 1 .. i`. -/
def rolling_mean (f : ℕ → ℚ) (window i : ℕ) : ℚ :=
  (∑ k ∈ Finset.range window, f (i - k)) / window

/-- The windowed average gain of `calculate_rsi`. -/
def avg_gain (series : ℕ → ℚ) (period i : ℕ) : ℚ :=
  rolling_mean (rsi_gain series) period i

/-- The windowed average loss of `calculate_rsi`. -/
def avg_loss (series : ℕ → ℚ) (period i : ℕ) : ℚ :=
  rolling_mean (rsi_loss series) period i

/-- The divisor of `rs`: `loss.replace({0: 1e-10})` substitutes the positive
epsilon exactly where the average loss is zero. -/
def loss_denom (series : ℕ → ℚ) (period i : ℕ) : ℚ :=
  if avg_loss series period i = 0 then 1 / 10 ^ 10 else avg_loss series period i

/-- `rs = gain / loss.replace({0: 1e-10})`. -/
def rs (series : ℕ → ℚ) (period i : ℕ) : ℚ :=
  avg_gain series period i / loss_denom series period i

/-- `calculate_rsi`: `rsi = 100 - 100/(1 + rs)`. -/
def calculate_rsi (series : ℕ → ℚ) (period i : ℕ) : ℚ :=
  100 - 100 / (1 + rs series period i)

/-! ### Concrete frames used by the counterexamples and witnesses -/

/-- A variant-2 frame: a Buy signal at bar 20 with entry close 100, then
closes 97 and 94 — a cumulative 6% drop below the entry (average cost) with
every one-bar return above −5%. -/
def d1A : V2Data :=
  { len := 23,
    close := fun i => if i ≤ 20 then 100 else if i = 21 then 97 else 94,
    volatility := fun _ => 0,
    buy_signal := fun i => decide (i = 20),
    sell_signal := fun _ => false }

/-- A variant-2 frame: a Buy signal on every bar from 20 on, entry close 100 at
bar 20, then a 20% crash at bar 21 that trips the fixed stop while the Buy
signal is still asserted. -/
def d3A : V2Data :=
  { len := 22,
    close := fun i => if i ≤ 20 then 100 else 80,
    volatility := fun _ => 0,
    buy_signal := fun i => decide (20 ≤ i),
    sell_signal := fun _ => false }

/-- A variant-3 frame: a Buy signal at bar 50 with entry close 100, then a 20%
crash at bar 51 that trips the fixed stop. -/
def d2A : V3Data :=
  { len := 52,
    close := fun i => if i ≤ 50 then 100 else 80,
    volatility := fun _ => 0, ATR := fun _ => 0,
    rsi := fun _ => 50, ma_trend := fun _ => 0, ma_long_trend := fun _ => 0,
    buy_signal := fun i => decide (i = 50),
    sell_signal := fun _ => false }

/-- A variant-3 frame: a Buy signal at bar 50 with entry close 100, then close
104 (a 4% unrealized gain, above `partial_sell_gain`) with a simultaneous Sell
signal at bar 51. -/
def d7A : V3Data :=
  { len := 52,
    close := fun i => if i ≤ 50 then 100 else 104,
    volatility := fun _ => 0, ATR := fun _ => 0,
    rsi := fun _ => 50, ma_trend := fun _ => 0, ma_long_trend := fun _ => 0,
    buy_signal := fun i => decide (i = 50),
    sell_signal := fun i => decide (i = 51) }

/-- `d7A` with the Sell signal removed: only the partial profit-taking fires. -/
def d7B : V3Data := { d7A with sell_signal := fun _ => false }

/-- A variant-3 frame with flat closes, a Buy at bar 50, and RSI 50 everywhere
(so the last row's RSI adjustment is 1.0). -/
def d10A : V3Data :=
  { len := 52,
    close := fun _ => 100,
    volatility := fun _ => 0, ATR := fun _ => 0,
    rsi := fun _ => 50, ma_trend := fun _ => 0, ma_long_trend := fun _ => 0,
    buy_signal := fun i => decide (i = 50),
    sell_signal := fun _ => false }

/-- `d10A` with only the LAST bar's RSI changed to 80 (adjustment 0.6). -/
def d10B : V3Data := { d10A with rsi := fun i => if i = 51 then 80 else 50 }

/-- `d10A` with only bar 50's RSI changed (the last bar's RSI untouched). -/
def d10C : V3Data := { d10A with rsi := fun i => if i = 50 then 99 else 50 }

/-- A variant-1 frame with constant prices and one Buy signal at bar 7. -/
def d4A : V1Data :=
  { len := 12,
    open_ := fun _ => 100, close := fun _ => 100,
    buy_signal := fun i => decide (i = 7),
    sell_signal := fun _ => false }

/-- A variant-1 frame whose signal columns are all Hold. -/
def d5A : V1Data :=
  { len := 12,
    open_ := fun _ => 100, close := fun i => (i : ℚ) + 1,
    buy_signal := fun _ => false, sell_signal := fun _ => false }

/-- A variant-2 frame whose signal columns are all Hold. -/
def d5B : V2Data :=
  { len := 23,
    close := fun i => (i : ℚ) + 1, volatility := fun _ => 0,
    buy_signal := fun _ => false, sell_signal := fun _ => false }

/-- A variant-3 frame whose signal columns are all Hold. -/
def d5C : V3Data :=
  { len := 52,
    close := fun i => (i : ℚ) + 1,
    volatility := fun _ => 0, ATR := fun _ => 0,
    rsi := fun _ => 50, ma_trend := fun _ => 0, ma_long_trend := fun _ => 0,
    buy_signal := fun _ => false, sell_signal := fun _ => false }

/-! ### Helper lemmas about the step functions -/

theorem v3step_pos_stop (P : V3Params) (d : V3Data) (i : ℕ) (s : V3State)
    (hpos : 0 < s.position)
    (hstop : v3should_stop P (v3longUpdate P s (d.close i) (d.ATR i)) (d.close i)) :
    v3step P d i s =
      (v3liquidate P (v3longUpdate P s (d.close i) (d.ATR i)) (d.close i), none) := by
  unfold v3step
  rw [if_pos hpos, if_pos hstop]

theorem v3step_pos_noStop (P : V3Params) (d : V3Data) (i : ℕ) (s : V3State)
    (hpos : 0 < s.position)
    (hstop : ¬ v3should_stop P (v3longUpdate P s (d.close i) (d.ATR i)) (d.close i)) :
    v3step P d i s =
      (v3buySell P d i (v3partial_sell P (v3longUpdate P s (d.close i) (d.ATR i)) (d.close i)),
       some (v3row d i
         (v3buySell P d i (v3partial_sell P (v3longUpdate P s (d.close i) (d.ATR i)) (d.close i))))) := by
  unfold v3step
  rw [if_pos hpos, if_neg hstop]

theorem v3step_flat (P : V3Params) (d : V3Data) (i : ℕ) (s : V3State)
    (hpos : ¬ 0 < s.position) :
    v3step P d i s = (v3buySell P d i s, some (v3row d i (v3buySell P d i s))) := by
  unfold v3step
  rw [if_neg hpos]

/-- If the executed partial sell is positive, it is strictly smaller than the
position: the sell fraction is capped at 0.8 by the `min`. -/
theorem shares_to_sell_lt (P : V3Params) (s : V3State) (price : ℚ)
    (hpos : 0 < s.position) (hk : 0 < v3shares_to_sell P s price) :
    v3shares_to_sell P s price < s.position := by
  unfold v3shares_to_sell pyInt at hk ⊢
  by_cases hx : (0 : ℚ) ≤ s.position * v3sell_ratio P (v3unrealized_pnl s price)
  · rw [if_pos hx] at hk ⊢
    have hr : v3sell_ratio P (v3unrealized_pnl s price) ≤ 8 / 10 :=
      min_le_left _ _
    have hp : (0 : ℚ) < (s.position : ℚ) := by exact_mod_cast hpos
    have h1 : (s.position : ℚ) * v3sell_ratio P (v3unrealized_pnl s price) ≤
        (s.position : ℚ) * (8 / 10) :=
      mul_le_mul_of_nonneg_left hr (le_of_lt hp)
    have h2 : ((⌊(s.position : ℚ) * v3sell_ratio P (v3unrealized_pnl s price)⌋ : ℤ) : ℚ) ≤
        (s.position : ℚ) * (8 / 10) :=
      le_trans (Int.floor_le _) h1
    have h3 : (s.position : ℚ) * (8 / 10) < (s.position : ℚ) := by linarith
    have h4 : ((⌊(s.position : ℚ) * v3sell_ratio P (v3unrealized_pnl s price)⌋ : ℤ) : ℚ) <
        (s.position : ℚ) := lt_of_le_of_lt h2 h3
    exact_mod_cast h4
  · rw [if_neg hx] at hk
    exfalso
    have h0 : (⌈(s.position : ℚ) * v3sell_ratio P (v3unrealized_pnl s price)⌉ : ℤ) ≤ 0 := by
      rw [Int.ceil_le]
      push_cast
      linarith [not_le.mp hx]
    omega

/-- Liquidation proceeds at the close minus transaction costs are nonnegative
when the cost rates sum to at most one. -/
theorem liquidation_nonneg (commission slippage price : ℚ) (q : ℤ)
    (hq : 0 ≤ q) (hp : 0 ≤ price) (_hc : 0 ≤ commission) (_hs : 0 ≤ slippage)
    (hcs : commission + slippage ≤ 1) :
    0 ≤ q * price - transaction_costs commission slippage price q := by
  unfold transaction_costs
  have hq' : (0 : ℚ) ≤ (q : ℚ) := by exact_mod_cast hq
  have key : (q : ℚ) * price - (price * q * commission + price * q * slippage) =
      ((q : ℚ) * price) * (1 - (commission + slippage)) := by ring
  rw [key]
  exact mul_nonneg (mul_nonneg hq' hp) (by linarith)

/-! ### Loop lemmas -/

theorem v1loop_rows (d : V1Data) (p : V1Row → Prop) (inv : V1State → Prop)
    (hstep : ∀ i s, inv s → inv (v1step d i s).1 ∧ p (v1step d i s).2) :
    ∀ (is : List ℕ) (s : V1State), inv s →
      inv (v1loop d is s).1 ∧ (v1loop d is s).2.Forall p := by
  intro is
  induction is with
  | nil => intro s h; exact ⟨h, trivial⟩
  | cons i is ih =>
    intro s h
    have h1 := hstep i s h
    have h2 := ih (v1step d i s).1 h1.1
    exact ⟨h2.1, (List.forall_cons _ _ _).mpr ⟨h1.2, h2.2⟩⟩

theorem v2loop_rows (P : V2Params) (d : V2Data) (p : V2Row → Prop) (inv : V2State → Prop)
    (hstep : ∀ i s, inv s → inv (v2step P d i s).1 ∧ p (v2step P d i s).2) :
    ∀ (is : List ℕ) (s : V2State), inv s →
      inv (v2loop P d is s).1 ∧ (v2loop P d is s).2.Forall p := by
  intro is
  induction is with
  | nil => intro s h; exact ⟨h, trivial⟩
  | cons i is ih =>
    intro s h
    have h1 := hstep i s h
    have h2 := ih (v2step P d i s).1 h1.1
    exact ⟨h2.1, (List.forall_cons _ _ _).mpr ⟨h1.2, h2.2⟩⟩

theorem v3loop_rows (P : V3Params) (d : V3Data) (p : V3Row → Prop) (inv : V3State → Prop)
    (hstep : ∀ i s, inv s →
      inv (v3step P d i s).1 ∧ ∀ r, (v3step P d i s).2 = some r → p r) :
    ∀ (is : List ℕ) (s : V3State), inv s →
      inv (v3loop P d is s).1 ∧ (v3loop P d is s).2.Forall p := by
  intro is
  induction is with
  | nil => intro s h; exact ⟨h, trivial⟩
  | cons i is ih =>
    intro s h
    have h1 := hstep i s h
    rcases hs : v3step P d i s with ⟨s', r?⟩
    rw [hs] at h1
    cases r? with
    | none =>
      have h2 := ih s' h1.1
      simpa [v3loop, hs] using h2
    | some r =>
      have h2 := ih s' h1.1
      have hr : p r := h1.2 r rfl
      simp only [v3loop, hs]
      exact ⟨h2.1, (List.forall_cons _ _ _).mpr ⟨hr, h2.2⟩⟩

theorem v1loop_dates (d : V1Data) :
    ∀ (is : List ℕ) (s : V1State), ((v1loop d is s).2.map fun r => r.date) = is := by
  intro is
  induction is with
  | nil => intro s; rfl
  | cons i is ih =>
    intro s
    simp only [v1loop, List.map_cons, ih]
    rfl

theorem v2loop_dates (P : V2Params) (d : V2Data) :
    ∀ (is : List ℕ) (s : V2State), ((v2loop P d is s).2.map fun r => r.date) = is := by
  intro is
  induction is with
  | nil => intro s; rfl
  | cons i is ih =>
    intro s
    simp only [v2loop, List.map_cons, ih]
    rfl

/-! ### Step preservation lemmas -/

theorem v1step_nonneg (d : V1Data) (hopen : ∀ j, 0 < d.open_ j) (i : ℕ) (s : V1State)
    (h : 0 ≤ s.cash ∧ 0 ≤ s.position) :
    0 ≤ (v1step d i s).1.cash ∧ 0 ≤ (v1step d i s).1.position := by
  unfold v1step
  dsimp only
  split_ifs with hb hs
  · obtain ⟨-, hp0⟩ := hb
    have hno := hopen (i + 1)
    have htot : s.cash + (s.position : ℚ) * d.close i = s.cash := by
      rw [hp0]; simp
    rw [htot]
    have h0x : 0 ≤ s.cash * (97 / 100) / d.open_ (i + 1) :=
      div_nonneg (mul_nonneg h.1 (by norm_num)) hno.le
    constructor
    · have hfl : ((⌊s.cash * (97 / 100) / d.open_ (i + 1)⌋ : ℤ) : ℚ) ≤
          s.cash * (97 / 100) / d.open_ (i + 1) := Int.floor_le _
      have h2 : ((⌊s.cash * (97 / 100) / d.open_ (i + 1)⌋ : ℤ) : ℚ) * d.open_ (i + 1) ≤
          s.cash * (97 / 100) / d.open_ (i + 1) * d.open_ (i + 1) :=
        mul_le_mul_of_nonneg_right hfl hno.le
      have h3 : s.cash * (97 / 100) / d.open_ (i + 1) * d.open_ (i + 1) =
          s.cash * (97 / 100) := div_mul_cancel₀ _ hno.ne'
      dsimp only
      linarith
    · exact Int.floor_nonneg.mpr h0x
  · constructor
    · have hq : (0 : ℚ) ≤ (s.position : ℚ) := by exact_mod_cast h.2
      have := mul_nonneg hq (hopen (i + 1)).le
      dsimp only
      linarith [h.1]
    · exact le_refl 0
  · exact h

theorem v2stops_nonneg (P : V2Params) (d : V2Data)
    (hclose : ∀ j, 0 < d.close j)
    (hc0 : 0 ≤ P.commission) (hs0 : 0 ≤ P.slippage) (hcs : P.commission + P.slippage ≤ 1)
    (i : ℕ) (s : V2State) (h : 0 ≤ s.cash ∧ 0 ≤ s.position) :
    0 ≤ (v2stops P d i s).cash ∧ 0 ≤ (v2stops P d i s).position := by
  unfold v2stops
  dsimp only
  split_ifs with hpos htrip
  · constructor
    · have := liquidation_nonneg P.commission P.slippage (d.close i) s.position
        h.2 (hclose i).le hc0 hs0 hcs
      dsimp only
      linarith [h.1]
    · exact le_refl 0
  · exact h
  · exact h

theorem v2buySell_nonneg (P : V2Params) (d : V2Data)
    (hclose : ∀ j, 0 < d.close j)
    (hc0 : 0 ≤ P.commission) (hs0 : 0 ≤ P.slippage) (hcs : P.commission + P.slippage ≤ 1)
    (i : ℕ) (total_value : ℚ) (s : V2State) (h : 0 ≤ s.cash ∧ 0 ≤ s.position) :
    0 ≤ (v2buySell P d i total_value s).cash ∧ 0 ≤ (v2buySell P d i total_value s).position := by
  unfold v2buySell
  dsimp only
  split_ifs with hbuy hsh hcost hsell
  · constructor
    · dsimp only
      linarith [hcost]
    · exact le_of_lt hsh
  · exact h
  · exact h
  · constructor
    · have := liquidation_nonneg P.commission P.slippage (d.close i) s.position
        h.2 (hclose i).le hc0 hs0 hcs
      dsimp only
      linarith [h.1]
    · exact le_refl 0
  · exact h

theorem v2step_nonneg (P : V2Params) (d : V2Data)
    (hclose : ∀ j, 0 < d.close j)
    (hc0 : 0 ≤ P.commission) (hs0 : 0 ≤ P.slippage) (hcs : P.commission + P.slippage ≤ 1)
    (i : ℕ) (s : V2State) (h : 0 ≤ s.cash ∧ 0 ≤ s.position) :
    0 ≤ (v2step P d i s).1.cash ∧ 0 ≤ (v2step P d i s).1.position := by
  have h1 := v2stops_nonneg P d hclose hc0 hs0 hcs i s h
  exact v2buySell_nonneg P d hclose hc0 hs0 hcs i _ _ h1

theorem v3buySell_nonneg (P : V3Params) (d : V3Data)
    (hclose : ∀ j, 0 < d.close j)
    (hc0 : 0 ≤ P.commission) (hs0 : 0 ≤ P.slippage) (hcs : P.commission + P.slippage ≤ 1)
    (i : ℕ) (s : V3State) (h : 0 ≤ s.cash ∧ 0 ≤ s.position) :
    0 ≤ (v3buySell P d i s).cash ∧ 0 ≤ (v3buySell P d i s).position := by
  unfold v3buySell
  dsimp only
  split_ifs with hbuy hsh hcost hsell
  · constructor
    · dsimp only
      linarith [hcost]
    · exact le_of_lt hsh
  · exact h
  · exact h
  · constructor
    · have := liquidation_nonneg P.commission P.slippage (d.close i) s.position
        h.2 (hclose i).le hc0 hs0 hcs
      dsimp only
      linarith [h.1]
    · exact le_refl 0
  · exact h

theorem v3step_nonneg (P : V3Params) (d : V3Data)
    (hclose : ∀ j, 0 < d.close j)
    (hc0 : 0 ≤ P.commission) (hs0 : 0 ≤ P.slippage) (hcs : P.commission + P.slippage ≤ 1)
    (i : ℕ) (s : V3State) (h : 0 ≤ s.cash ∧ 0 ≤ s.position) :
    0 ≤ (v3step P d i s).1.cash ∧ 0 ≤ (v3step P d i s).1.position := by
  by_cases hpos : 0 < s.position
  · by_cases hstop : v3should_stop P (v3longUpdate P s (d.close i) (d.ATR i)) (d.close i)
    · rw [v3step_pos_stop P d i s hpos hstop]
      constructor
      · have := liquidation_nonneg P.commission P.slippage (d.close i) s.position
          h.2 (hclose i).le hc0 hs0 hcs
        dsimp only [v3liquidate, v3longUpdate]
        linarith [h.1]
      · exact le_refl 0
    · rw [v3step_pos_noStop P d i s hpos hstop]
      have hpart : 0 ≤ (v3partial_sell P (v3longUpdate P s (d.close i) (d.ATR i)) (d.close i)).cash ∧
          0 ≤ (v3partial_sell P (v3longUpdate P s (d.close i) (d.ATR i)) (d.close i)).position := by
        unfold v3partial_sell
        split_ifs with hg hk
        · have hklt := shares_to_sell_lt P (v3longUpdate P s (d.close i) (d.ATR i)) (d.close i)
            hpos hk
          have hcash : (v3longUpdate P s (d.close i) (d.ATR i)).cash = s.cash := rfl
          have hposi : (v3longUpdate P s (d.close i) (d.ATR i)).position = s.position := rfl
          constructor
          · have hliq := liquidation_nonneg P.commission P.slippage (d.close i)
              (v3shares_to_sell P (v3longUpdate P s (d.close i) (d.ATR i)) (d.close i))
              (le_of_lt hk) (hclose i).le hc0 hs0 hcs
            dsimp only
            rw [hcash]
            linarith [h.1]
          · dsimp only
            omega
        · exact h
        · exact h
      exact v3buySell_nonneg P d hclose hc0 hs0 hcs i _ hpart
  · rw [v3step_flat P d i s hpos]
    exact v3buySell_nonneg P d hclose hc0 hs0 hcs i s h

theorem v3step_row_state (P : V3Params) (d : V3Data) (i : ℕ) (s : V3State) :
    ∀ r, (v3step P d i s).2 = some r →
      r.cash = (v3step P d i s).1.cash ∧ r.position = (v3step P d i s).1.position := by
  intro r hr
  by_cases hpos : 0 < s.position
  · by_cases hstop : v3should_stop P (v3longUpdate P s (d.close i) (d.ATR i)) (d.close i)
    · rw [v3step_pos_stop P d i s hpos hstop] at hr
      exact absurd hr (by simp)
    · rw [v3step_pos_noStop P d i s hpos hstop] at hr ⊢
      have : r = v3row d i (v3buySell P d i
          (v3partial_sell P (v3longUpdate P s (d.close i) (d.ATR i)) (d.close i))) := by
        simpa using hr.symm
      rw [this]
      exact ⟨rfl, rfl⟩
  · rw [v3step_flat P d i s hpos] at hr ⊢
    have : r = v3row d i (v3buySell P d i s) := by simpa using hr.symm
    rw [this]
    exact ⟨rfl, rfl⟩

/-! ### All-Hold step lemmas -/

theorem v1step_hold (d : V1Data) (i : ℕ) (s : V1State)
    (hb : d.buy_signal i = false) (hs : d.sell_signal i = false) :
    (v1step d i s).1 = s ∧ (v1step d i s).2.cash = s.cash ∧
    (v1step d i s).2.position = s.position ∧
    (v1step d i s).2.portfolio_value = s.cash + s.position * d.close i := by
  unfold v1step
  dsimp only
  rw [if_neg (by rintro ⟨hcontra, -⟩; simp [hb] at hcontra),
    if_neg (by rintro ⟨hcontra, -⟩; simp [hs] at hcontra)]
  exact ⟨rfl, rfl, rfl, rfl⟩

theorem v2step_hold (P : V2Params) (d : V2Data) (i : ℕ) (s : V2State)
    (hb : d.buy_signal i = false) (hs : d.sell_signal i = false)
    (hp0 : s.position = 0) :
    (v2step P d i s).1 = s ∧ (v2step P d i s).2.cash = s.cash ∧
    (v2step P d i s).2.position = s.position ∧
    (v2step P d i s).2.portfolio_value = s.cash + s.position * d.close i := by
  have hstops : v2stops P d i s = s := by
    unfold v2stops
    rw [if_neg (by omega)]
  unfold v2step
  dsimp only
  rw [hstops]
  unfold v2buySell
  rw [if_neg (by rintro ⟨hcontra, -⟩; simp [hb] at hcontra),
    if_neg (by rintro ⟨hcontra, -⟩; simp [hs] at hcontra)]
  exact ⟨rfl, rfl, rfl, rfl⟩

theorem v3step_hold (P : V3Params) (d : V3Data) (i : ℕ) (s : V3State)
    (hb : d.buy_signal i = false) (hs : d.sell_signal i = false)
    (hp0 : s.position = 0) :
    (v3step P d i s).1 = s ∧
    ∀ r, (v3step P d i s).2 = some r →
      r.cash = s.cash ∧ r.position = s.position ∧
      r.portfolio_value = s.cash + s.position * d.close i := by
  have hflat : ¬ 0 < s.position := by omega
  have hbs : v3buySell P d i s = s := by
    unfold v3buySell
    rw [if_neg (by rintro ⟨hcontra, -⟩; simp [hb] at hcontra),
      if_neg (by rintro ⟨hcontra, -⟩; simp [hs] at hcontra)]
  rw [v3step_flat P d i s hflat]
  rw [hbs]
  refine ⟨rfl, ?_⟩
  intro r hr
  have : r = v3row d i s := by simpa using hr.symm
  rw [this]
  exact ⟨rfl, rfl, rfl⟩

/-! ### Claims -/

/-- C9: variant 1's loop processes exactly the bar indices 7 through
`len(data) - 3` inclusive (`range(7, len-2)`), variant 2's the indices 20
through `len(data) - 1` (`range(20, len)`), and variant 3's the indices
`max(50, atr_period)` through `len(data) - 1`. -/
theorem C9_warmup_ranges :
    ∀ (d1 : V1Data) (d2 : V2Data) (P3 : V3Params) (d3 : V3Data) (i : ℕ),
      (i ∈ v1indices d1 ↔ 7 ≤ i ∧ i + 3 ≤ d1.len) ∧
      (i ∈ v2indices d2 ↔ 20 ≤ i ∧ i < d2.len) ∧
      (i ∈ v3indices P3 d3 ↔ max 50 P3.atr_period ≤ i ∧ i < d3.len) := by
  intro d1 d2 P3 d3 i
  refine ⟨?_, ?_, ?_⟩
  · unfold v1indices
    rw [List.mem_range'_1]
    omega
  · unfold v2indices
    rw [List.mem_range'_1]
    omega
  · unfold v3indices v3start
    rw [List.mem_range'_1]
    generalize max 50 P3.atr_period = m
    omega

/-- C6: for variant 3's signal generator, the sum of the six binary scoring
sub-conditions always lies in [0, 6], and `buy_signal` is true exactly when
that sum is at least 4; in particular a score of exactly 4 triggers Buy. -/
theorem C6_buy_score :
    ∀ (P : V3Params) (D : V3Indicators) (i : ℕ),
      0 ≤ buy_score P D i ∧ buy_score P D i ≤ 6 ∧
      (v3buy_signal P D i = true ↔ 4 ≤ buy_score P D i) ∧
      (buy_score P D i = 4 → v3buy_signal P D i = true) := by
  intro P D i
  refine ⟨?_, ?_, ?_, ?_⟩
  · unfold buy_score b2i
    split_ifs <;> norm_num
  · unfold buy_score b2i
    split_ifs <;> norm_num
  · simp [v3buy_signal]
  · intro h
    simp [v3buy_signal, h]

/-- C8: in `calculate_rsi`, the windowed average loss is nonnegative; the
divisor of `rs` is always strictly positive, equal to the epsilon `1e-10`
exactly when the average loss is zero; the relative strength is the average
gain over that clamped divisor and is nonnegative, so the denominator
`1 + rs` is nonzero and `rsi = 100 - 100/(1+rs)` never divides by zero. -/
theorem C8_rsi_epsilon :
    ∀ (series : ℕ → ℚ) (period i : ℕ),
      0 ≤ avg_loss series period i ∧
      0 < loss_denom series period i ∧
      (avg_loss series period i = 0 → loss_denom series period i = 1 / 10 ^ 10) ∧
      rs series period i = avg_gain series period i / loss_denom series period i ∧
      0 ≤ rs series period i ∧
      1 + rs series period i ≠ 0 ∧
      calculate_rsi series period i = 100 - 100 / (1 + rs series period i) := by
  intro s n i
  have hg : 0 ≤ avg_gain s n i := by
    unfold avg_gain rolling_mean
    apply div_nonneg _ (Nat.cast_nonneg n)
    apply Finset.sum_nonneg
    intro k _
    unfold rsi_gain
    split
    · linarith
    · exact le_refl 0
  have hl : 0 ≤ avg_loss s n i := by
    unfold avg_loss rolling_mean
    apply div_nonneg _ (Nat.cast_nonneg n)
    apply Finset.sum_nonneg
    intro k _
    unfold rsi_loss
    split
    · linarith
    · exact le_refl 0
  have hd : 0 < loss_denom s n i := by
    unfold loss_denom
    split
    · norm_num
    · exact lt_of_le_of_ne hl (Ne.symm (by assumption))
  have hrs : 0 ≤ rs s n i := div_nonneg hg (le_of_lt hd)
  refine ⟨hl, hd, ?_, rfl, hrs, ?_, rfl⟩
  · intro h
    unfold loss_denom
    rw [if_pos h]
  · have : (0 : ℚ) < 1 + rs s n i := by linarith
    exact this.ne'

/-- C4: in every variant's backtest loop, cash is nonnegative and the position
is a nonnegative (integer-typed) share count after every processed bar, given
positive prices, nonnegative cost rates summing to at most one, and
nonnegative initial cash. Moreover (last conjunct) a variant-2 bar entered
flat either opens a position or leaves cash (and the flat position)
unchanged — an unaffordable or zero-share buy is a no-op. -/
theorem C4_cash_position_nonneg
    (d1 : V1Data) (c1 : ℚ)
    (P2 : V2Params) (d2 : V2Data) (c2 : ℚ)
    (P3 : V3Params) (d3 : V3Data) (c3 : ℚ)
    (i : ℕ) (s : V2State)
    (h1c : 0 ≤ c1) (h1o : ∀ j, 0 < d1.open_ j)
    (h2c : 0 ≤ c2) (h2cm : 0 ≤ P2.commission) (h2sl : 0 ≤ P2.slippage)
    (h2cs : P2.commission + P2.slippage ≤ 1) (h2cl : ∀ j, 0 < d2.close j)
    (h3c : 0 ≤ c3) (h3cm : 0 ≤ P3.commission) (h3sl : 0 ≤ P3.slippage)
    (h3cs : P3.commission + P3.slippage ≤ 1) (h3cl : ∀ j, 0 < d3.close j)
    (hsp : s.position = 0) (hsc : 0 ≤ s.cash) :
    ((v1backtest d1 c1).Forall fun r => 0 ≤ r.cash ∧ 0 ≤ r.position) ∧
    ((v2backtest P2 d2 c2).Forall fun r => 0 ≤ r.cash ∧ 0 ≤ r.position) ∧
    ((v3backtest P3 d3 c3).Forall fun r => 0 ≤ r.cash ∧ 0 ≤ r.position) ∧
    (0 ≤ (v2step P2 d2 i s).1.cash ∧
     ((v2step P2 d2 i s).1.position = 0 → (v2step P2 d2 i s).1.cash = s.cash)) := by
  refine ⟨?_, ?_, ?_, ?_⟩
  · exact (v1loop_rows d1 (fun r => 0 ≤ r.cash ∧ 0 ≤ r.position)
      (fun st => 0 ≤ st.cash ∧ 0 ≤ st.position)
      (fun j st hst => ⟨v1step_nonneg d1 h1o j st hst, v1step_nonneg d1 h1o j st hst⟩)
      (v1indices d1) _ ⟨h1c, le_refl 0⟩).2
  · exact (v2loop_rows P2 d2 (fun r => 0 ≤ r.cash ∧ 0 ≤ r.position)
      (fun st => 0 ≤ st.cash ∧ 0 ≤ st.position)
      (fun j st hst => ⟨v2step_nonneg P2 d2 h2cl h2cm h2sl h2cs j st hst,
        v2step_nonneg P2 d2 h2cl h2cm h2sl h2cs j st hst⟩)
      (v2indices d2) _ ⟨h2c, le_refl 0⟩).2
  · refine (v3loop_rows P3 d3 (fun r => 0 ≤ r.cash ∧ 0 ≤ r.position)
      (fun st => 0 ≤ st.cash ∧ 0 ≤ st.position)
      (fun j st hst => ⟨v3step_nonneg P3 d3 h3cl h3cm h3sl h3cs j st hst, ?_⟩)
      (v3indices P3 d3) _ ⟨h3c, le_refl 0⟩).2
    intro r hr
    obtain ⟨hrc, hrp⟩ := v3step_row_state P3 d3 j st r hr
    have hst' := v3step_nonneg P3 d3 h3cl h3cm h3sl h3cs j st hst
    rw [hrc, hrp]
    exact hst'
  · have hstops : v2stops P2 d2 i s = s := by
      unfold v2stops
      rw [if_neg (by omega)]
    unfold v2step
    dsimp only
    rw [hstops]
    unfold v2buySell
    dsimp only
    split_ifs with hbuy hsh hcost hsell
    · refine ⟨by dsimp only; linarith [hcost], ?_⟩
      intro hP
      exfalso
      dsimp only at hP
      omega
    · exact ⟨hsc, fun _ => rfl⟩
    · exact ⟨hsc, fun _ => rfl⟩
    · exact absurd hsell.2 (by omega)
    · exact ⟨hsc, fun _ => rfl⟩

/-- C5: replaying an all-Hold signal sequence (both signal columns false on
every bar) over any price series leaves cash equal to the initial cash and
position 0 after every processed bar, with the emitted portfolio value
constant and equal to the initial cash, in all three variants. -/
theorem C5_all_hold_identity
    (d1 : V1Data) (P2 : V2Params) (d2 : V2Data) (P3 : V3Params) (d3 : V3Data) (c : ℚ)
    (h1b : ∀ j, d1.buy_signal j = false) (h1s : ∀ j, d1.sell_signal j = false)
    (h2b : ∀ j, d2.buy_signal j = false) (h2s : ∀ j, d2.sell_signal j = false)
    (h3b : ∀ j, d3.buy_signal j = false) (h3s : ∀ j, d3.sell_signal j = false) :
    ((v1backtest d1 c).Forall fun r =>
      r.cash = c ∧ r.position = 0 ∧ r.portfolio_value = c) ∧
    ((v2backtest P2 d2 c).Forall fun r =>
      r.cash = c ∧ r.position = 0 ∧ r.portfolio_value = c) ∧
    ((v3backtest P3 d3 c).Forall fun r =>
      r.cash = c ∧ r.position = 0 ∧ r.portfolio_value = c) := by
  refine ⟨?_, ?_, ?_⟩
  · refine (v1loop_rows d1 _ (fun st => st.cash = c ∧ st.position = 0) ?_
      (v1indices d1) _ ⟨rfl, rfl⟩).2
    intro j st hst
    obtain ⟨he, hrc, hrp, hrv⟩ := v1step_hold d1 j st (h1b j) (h1s j)
    constructor
    · rw [he]; exact hst
    · refine ⟨by rw [hrc, hst.1], by rw [hrp, hst.2], ?_⟩
      rw [hrv, hst.1, hst.2]
      simp
  · refine (v2loop_rows P2 d2 _ (fun st => st.cash = c ∧ st.position = 0) ?_
      (v2indices d2) _ ⟨rfl, rfl⟩).2
    intro j st hst
    obtain ⟨he, hrc, hrp, hrv⟩ := v2step_hold P2 d2 j st (h2b j) (h2s j) hst.2
    constructor
    · rw [he]; exact hst
    · refine ⟨by rw [hrc, hst.1], by rw [hrp, hst.2], ?_⟩
      rw [hrv, hst.1, hst.2]
      simp
  · refine (v3loop_rows P3 d3 _ (fun st => st.cash = c ∧ st.position = 0) ?_
      (v3indices P3 d3) _ ⟨rfl, rfl⟩).2
    intro j st hst
    obtain ⟨he, hrow⟩ := v3step_hold P3 d3 j st (h3b j) (h3s j) hst.2
    constructor
    · rw [he]; exact hst
    · intro r hr
      obtain ⟨hrc, hrp, hrv⟩ := hrow r hr
      refine ⟨by rw [hrc, hst.1], by rw [hrp, hst.2], ?_⟩
      rw [hrv, hst.1, hst.2]
      simp

/-- C7 (amended): in variant 3, on a Long bar where no stop tripped, the
unrealized gain is at least `partial_sell_gain`, AND no Sell signal is
asserted on that bar (see the counterexample for why this proviso is forced),
the simulator sells `int(position * min(0.8, partial_sell_ratio * (1 + gain)))`
shares at the close minus transaction costs (zero shares when that truncation
is not positive); the number sold is strictly less than the position, the
end-of-bar position stays positive, the average cost basis is unchanged, and
the bar emits its record. -/
theorem C7_partial_profit_taking
    (P : V3Params) (d : V3Data) (i : ℕ) (s : V3State)
    (hpos : 0 < s.position)
    (hnstop : ¬ v3should_stop P (v3longUpdate P s (d.close i) (d.ATR i)) (d.close i))
    (hgain : P.partial_sell_gain ≤ v3unrealized_pnl s (d.close i))
    (hsell : d.sell_signal i = false) :
    (v3step P d i s).1.position = s.position -
      (if 0 < v3shares_to_sell P s (d.close i) then v3shares_to_sell P s (d.close i) else 0) ∧
    0 < (v3step P d i s).1.position ∧
    (v3step P d i s).1.avg_cost = s.avg_cost ∧
    (v3step P d i s).1.cash = s.cash +
      (if 0 < v3shares_to_sell P s (d.close i) then
        (v3shares_to_sell P s (d.close i) : ℚ) * d.close i -
          transaction_costs P.commission P.slippage (d.close i) (v3shares_to_sell P s (d.close i))
       else 0) ∧
    (v3step P d i s).2 = some (v3row d i (v3step P d i s).1) := by
  have hup := v3step_pos_noStop P d i s hpos hnstop
  have hgain' : P.partial_sell_gain ≤
      v3unrealized_pnl (v3longUpdate P s (d.close i) (d.ATR i)) (d.close i) := hgain
  by_cases hk : 0 < v3shares_to_sell P s (d.close i)
  · have hk' : 0 < v3shares_to_sell P (v3longUpdate P s (d.close i) (d.ATR i)) (d.close i) := hk
    have hklt := shares_to_sell_lt P s (d.close i) hpos hk
    have hpart : v3partial_sell P (v3longUpdate P s (d.close i) (d.ATR i)) (d.close i) =
        { v3longUpdate P s (d.close i) (d.ATR i) with
          cash := s.cash + v3shares_to_sell P s (d.close i) * d.close i
            - transaction_costs P.commission P.slippage (d.close i)
                (v3shares_to_sell P s (d.close i)),
          position := s.position - v3shares_to_sell P s (d.close i) } := by
      unfold v3partial_sell
      rw [if_pos hgain', if_pos hk']
      rfl
    have hbs : v3buySell P d i
        (v3partial_sell P (v3longUpdate P s (d.close i) (d.ATR i)) (d.close i)) =
        v3partial_sell P (v3longUpdate P s (d.close i) (d.ATR i)) (d.close i) := by
      rw [hpart]
      unfold v3buySell
      rw [if_neg (by rintro ⟨-, h0⟩; simp only at h0; omega)]
      rw [if_neg (by rintro ⟨hcontra, -⟩; simp [hsell] at hcontra)]
    rw [hup, hbs, hpart]
    refine ⟨?_, ?_, ?_, ?_, rfl⟩
    · dsimp only
      rw [if_pos hk]
    · dsimp only
      omega
    · dsimp only [v3longUpdate]
    · dsimp only
      rw [if_pos hk]
      ring
  · have hk' : ¬ 0 < v3shares_to_sell P (v3longUpdate P s (d.close i) (d.ATR i)) (d.close i) := hk
    have hpart : v3partial_sell P (v3longUpdate P s (d.close i) (d.ATR i)) (d.close i) =
        v3longUpdate P s (d.close i) (d.ATR i) := by
      unfold v3partial_sell
      rw [if_pos hgain', if_neg hk']
    have hbs : v3buySell P d i
        (v3partial_sell P (v3longUpdate P s (d.close i) (d.ATR i)) (d.close i)) =
        v3partial_sell P (v3longUpdate P s (d.close i) (d.ATR i)) (d.close i) := by
      rw [hpart]
      unfold v3buySell
      rw [if_neg (by rintro ⟨-, h0⟩; simp only [v3longUpdate] at h0; omega)]
      rw [if_neg (by rintro ⟨hcontra, -⟩; simp [hsell] at hcontra)]
    rw [hup, hbs, hpart]
    refine ⟨?_, ?_, rfl, ?_, rfl⟩
    · dsimp only [v3longUpdate]
      rw [if_neg hk]
      omega
    · dsimp only [v3longUpdate]
      exact hpos
    · dsimp only [v3longUpdate]
      rw [if_neg hk]
      ring

section ConcreteEvaluation

attribute [local semireducible] Rat.add Rat.mul Rat.inv Rat.sub Rat.ofScientific

/-- C1 (amended): variant 3 evaluates the fixed stop as the unrealized return
against the average cost basis (`close/avg_cost - 1 < -stop_loss`) and a trip
liquidates 100% of the position on that bar at the close minus transaction
costs, leaving no residual position (and emitting no record). Variant 2's
fixed stop instead compares the ONE-BAR return `close[i]/close[i-1] - 1`
against `stop_loss` — not the return against average cost, which variant 2
does not even track — and a trip likewise liquidates the stop section's whole
position. -/
theorem C1_fixed_stop_semantics
    (P3 : V3Params) (d3 : V3Data) (i3 : ℕ) (s3 : V3State)
    (P2 : V2Params) (d2 : V2Data) (i2 : ℕ) (s2 : V2State)
    (h3pos : 0 < s3.position)
    (h3fix : d3.close i3 / s3.avg_cost - 1 < -P3.stop_loss)
    (h2pos : 0 < s2.position)
    (h2fix : d2.close i2 / d2.close (i2 - 1) - 1 < P2.stop_loss) :
    ((v3step P3 d3 i3 s3).1.position = 0 ∧
     (v3step P3 d3 i3 s3).1.cash = s3.cash + s3.position * d3.close i3
       - transaction_costs P3.commission P3.slippage (d3.close i3) s3.position ∧
     (v3step P3 d3 i3 s3).2 = none) ∧
    ((v2stops P2 d2 i2 s2).position = 0 ∧
     (v2stops P2 d2 i2 s2).cash = s2.cash + s2.position * d2.close i2
       - transaction_costs P2.commission P2.slippage (d2.close i2) s2.position) := by
  constructor
  · have hstop : v3should_stop P3 (v3longUpdate P3 s3 (d3.close i3) (d3.ATR i3)) (d3.close i3) := by
      left
      simpa [v3longUpdate] using h3fix
    rw [v3step_pos_stop P3 d3 i3 s3 h3pos hstop]
    refine ⟨rfl, ?_, rfl⟩
    simp [v3liquidate, v3longUpdate]
  · unfold v2stops
    rw [if_pos h2pos, if_pos (Or.inl h2fix)]
    exact ⟨rfl, rfl⟩

/-- C2 (amended): variants 1 and 2 emit exactly one LedgerRow per processed
bar, in order (the dates of the history are exactly the loop's indices).
Variant 3 emits no record on a bar where a stop tripped — the `continue`
skips the append — and exactly one record on every other processed bar. -/
theorem C2_ledger_rows :
    (∀ (d : V1Data) (c : ℚ), ((v1backtest d c).map fun r => r.date) = v1indices d) ∧
    (∀ (P : V2Params) (d : V2Data) (c : ℚ),
      ((v2backtest P d c).map fun r => r.date) = v2indices d) ∧
    (∀ (P : V3Params) (d : V3Data) (i : ℕ) (s : V3State),
      ((v3step P d i s).2 = none ↔
        0 < s.position ∧
        v3should_stop P (v3longUpdate P s (d.close i) (d.ATR i)) (d.close i)) ∧
      (∀ r, (v3step P d i s).2 = some r → r.date = i)) := by
  refine ⟨?_, ?_, ?_⟩
  · intro d c
    exact v1loop_dates d (v1indices d) _
  · intro P d c
    exact v2loop_dates P d (v2indices d) _
  · intro P d i s
    constructor
    · constructor
      · intro hnone
        by_cases hpos : 0 < s.position
        · by_cases hstop :
              v3should_stop P (v3longUpdate P s (d.close i) (d.ATR i)) (d.close i)
          · exact ⟨hpos, hstop⟩
          · rw [v3step_pos_noStop P d i s hpos hstop] at hnone
            exact absurd hnone (by simp)
        · rw [v3step_flat P d i s hpos] at hnone
          exact absurd hnone (by simp)
      · rintro ⟨hpos, hstop⟩
        rw [v3step_pos_stop P d i s hpos hstop]
    · intro r hr
      by_cases hpos : 0 < s.position
      · by_cases hstop :
            v3should_stop P (v3longUpdate P s (d.close i) (d.ATR i)) (d.close i)
        · rw [v3step_pos_stop P d i s hpos hstop] at hr
          exact absurd hr (by simp)
        · rw [v3step_pos_noStop P d i s hpos hstop] at hr
          have : r = v3row d i
              (v3buySell P d i (v3partial_sell P (v3longUpdate P s (d.close i) (d.ATR i))
                (d.close i))) := by
            simpa using hr.symm
          rw [this]
          rfl
      · rw [v3step_flat P d i s hpos] at hr
        have : r = v3row d i (v3buySell P d i s) := by simpa using hr.symm
        rw [this]
        rfl

/-- C3 (amended): in variant 3, a tripped stop liquidates the whole position
and — via `continue` — skips all further action on that bar, so no new entry
occurs on a stop bar. In variant 2 the stop section also liquidates fully,
and the bar ends flat whenever no Buy signal is asserted; but (see the
counterexample) variant 2 does NOT skip further action, so a Buy signal on
the stop bar opens a fresh position on that same bar. -/
theorem C3_stop_precedence
    (P3 : V3Params) (d3 : V3Data) (i3 : ℕ) (s3 : V3State)
    (P2 : V2Params) (d2 : V2Data) (i2 : ℕ) (s2 : V2State)
    (h3pos : 0 < s3.position)
    (h3stop : v3should_stop P3 (v3longUpdate P3 s3 (d3.close i3) (d3.ATR i3)) (d3.close i3))
    (h2pos : 0 < s2.position)
    (h2stop : d2.close i2 / d2.close (i2 - 1) - 1 < P2.stop_loss ∨
      d2.close i2 < max s2.highest_price (d2.close i2) * (1 - P2.trailing_stop))
    (h2buy : d2.buy_signal i2 = false) :
    ((v3step P3 d3 i3 s3).1.position = 0 ∧ (v3step P3 d3 i3 s3).2 = none) ∧
    (v2step P2 d2 i2 s2).1.position = 0 := by
  constructor
  · rw [v3step_pos_stop P3 d3 i3 s3 h3pos h3stop]
    exact ⟨rfl, rfl⟩
  · have hstops : (v2stops P2 d2 i2 s2).position = 0 := by
      unfold v2stops
      rw [if_pos h2pos, if_pos h2stop]
    unfold v2step
    unfold v2buySell
    rw [if_neg (by simp [h2buy])]
    rw [if_neg (by simp [hstops])]
    exact hstops

/-- C1 counterexample: in variant 2 (`d1A`, defaults), the entry at bar 20 is
at close 100 (the average cost); at bar 22 the close 94 is 6% below that
average cost — below the 5% fixed stop of the claim — yet the position is not
liquidated (it stays 700 through bar 22), because the source's fixed stop
compares the one-bar return `close[i]/close[i-1] - 1`, not the unrealized
return against average cost. -/
theorem C1_fixed_stop_cex :
    ((v2backtest v2defaults d1A 100000).map fun r => (r.date, r.position)) =
      [(20, 700), (21, 700), (22, 700)] ∧
    d1A.close 22 / d1A.close 20 - 1 < v2defaults.stop_loss := by
  constructor
  · decide
  · decide

/-- C2 counterexample: in variant 3 (`d2A`, defaults), the loop processes the
two bars 50 and 51, but the history holds a single record (for bar 50): the
stop tripped at bar 51 executes `continue` before the append, so the stop bar
emits no LedgerRow. -/
theorem C2_ledger_rows_cex :
    ((v3backtest v3defaults d2A 100000).map fun r => r.date) = [50] ∧
    v3indices v3defaults d2A = [50, 51] := by
  constructor
  · decide
  · decide

/-- C3 counterexample: in variant 2 (`d3A`, defaults), the state entering bar
21 is long 700 shares at cash 29965; the stop section of bar 21 liquidates the
whole position (position 0), and then the Buy branch of the same bar opens a
new 752-share position — a close AND an open on one bar. -/
theorem C3_stop_precedence_cex :
    (v2loop v2defaults d3A [20] { cash := 100000, position := 0, highest_price := 0 }).1 =
      { cash := 29965, position := 700, highest_price := 100 } ∧
    (v2stops v2defaults d3A 21 { cash := 29965, position := 700, highest_price := 100 }).position = 0 ∧
    (v2step v2defaults d3A 21 { cash := 29965, position := 700, highest_price := 100 }).1.position = 752 := by
  refine ⟨?_, ?_, ?_⟩
  · decide
  · decide
  · decide

/-- C7 counterexample: in variant 3 (`d7A`, defaults), bar 51 is Long 800 at
average cost 100 with close 104 — a 4% unrealized gain above
`partial_sell_gain = 3%` and no stop tripped — yet the bar ends with position
0, not a reduced positive position: after the partial sell (468 shares left)
the simultaneous Sell signal liquidates the remainder in the same bar. -/
theorem C7_partial_profit_taking_cex :
    ((v3backtest v3defaults d7A 100000).map fun r => (r.date, r.position)) =
      [(50, 800), (51, 0)] ∧
    v3defaults.partial_sell_gain ≤ (d7A.close 51 - d7A.close 50) / d7A.close 50 := by
  constructor
  · decide
  · decide

/-- C10: `calculate_position_size` reads the RSI and trend adjustments from
the LAST row of the whole frame (`iloc[-1]`), not from the current bar: any
two frames agreeing on the last row's `rsi`, `ma_trend` and `ma_long_trend`
produce identical share counts for the same cash/price/volatility (whatever
their other rows hold), while changing only the last bar's RSI (frames `d10A`
vs `d10B`, identical except `rsi` at bar 51) changes the entry share count
computed at the earlier bar 50 from 800 to 480 throughout the backtest. -/
theorem C10_position_size_last_bar :
    (∀ (P : V3Params) (d d' : V3Data) (cash price volatility : ℚ),
      d.rsi (d.len - 1) = d'.rsi (d'.len - 1) →
      d.ma_trend (d.len - 1) = d'.ma_trend (d'.len - 1) →
      d.ma_long_trend (d.len - 1) = d'.ma_long_trend (d'.len - 1) →
      v3position_size P d cash price volatility =
        v3position_size P d' cash price volatility) ∧
    v3position_size v3defaults d10A 100000 100 0 = 800 ∧
    v3position_size v3defaults d10B 100000 100 0 = 480 ∧
    ((v3backtest v3defaults d10A 100000).map fun r => (r.date, r.position)) =
      [(50, 800), (51, 800)] ∧
    ((v3backtest v3defaults d10B 100000).map fun r => (r.date, r.position)) =
      [(50, 480), (51, 480)] := by
  refine ⟨?_, by decide, by decide, by decide, by decide⟩
  intro P d d' cash price volatility h1 h2 h3
  unfold v3position_size
  rw [h1, h2, h3]

/-- C10 witness: changing a NON-last bar's RSI (`d10C` differs from `d10A`
only at bar 50) leaves the computed share count unchanged, by the
noninterference part of the claim's theorem. -/
theorem C10_position_size_last_bar_inst :
    v3position_size v3defaults d10A 100000 100 0 =
      v3position_size v3defaults d10C 100000 100 0 :=
  C10_position_size_last_bar.1 v3defaults d10A d10C 100000 100 0 (by decide) rfl rfl

/-- C1 witness: the amended fixed-stop semantics applied at bar 51 of `d2A`
(variant 3, Long 800 at cost 100, close 80) and bar 21 of `d3A` (variant 2,
Long 700, close 80 after 100). -/
theorem C1_fixed_stop_semantics_inst :
    (v3step v3defaults d2A 51 ⟨19960, 800, 100, 100, 100⟩).1.position = 0 ∧
    (v2stops v2defaults d3A 21 ⟨29965, 700, 100⟩).position = 0 := by
  have h := C1_fixed_stop_semantics v3defaults d2A 51 ⟨19960, 800, 100, 100, 100⟩
    v2defaults d3A 21 ⟨29965, 700, 100⟩ (by decide) (by decide) (by decide) (by decide)
  exact ⟨h.1.1, h.2.1⟩

/-- C3 witness: the amended precedence statement applied at bar 51 of `d2A`
(variant 3) and at bar 21 of `d1A` (variant 2, trailing trip from highest 120
with no Buy signal). -/
theorem C3_stop_precedence_inst :
    ((v3step v3defaults d2A 51 ⟨19960, 800, 100, 100, 100⟩).1.position = 0 ∧
     (v3step v3defaults d2A 51 ⟨19960, 800, 100, 100, 100⟩).2 = none) ∧
    (v2step v2defaults d1A 21 ⟨29965, 700, 120⟩).1.position = 0 :=
  C3_stop_precedence v3defaults d2A 51 ⟨19960, 800, 100, 100, 100⟩
    v2defaults d1A 21 ⟨29965, 700, 120⟩
    (by decide) (by decide) (by decide) (Or.inr (by decide)) (by decide)

/-- C4 witness: the nonnegativity invariant instantiated on the concrete
frames `d4A`, `d1A`, `d2A` with the default parameters and initial cash
100000, and the variant-2 no-op conjunct at a flat state with cash 5 (too
little to buy a single 100-priced share). -/
theorem C4_cash_position_nonneg_inst :
    ((v1backtest d4A 100000).Forall fun r => 0 ≤ r.cash ∧ 0 ≤ r.position) ∧
    ((v2backtest v2defaults d1A 100000).Forall fun r => 0 ≤ r.cash ∧ 0 ≤ r.position) ∧
    ((v3backtest v3defaults d2A 100000).Forall fun r => 0 ≤ r.cash ∧ 0 ≤ r.position) ∧
    (0 ≤ (v2step v2defaults d1A 20 ⟨5, 0, 0⟩).1.cash ∧
     ((v2step v2defaults d1A 20 ⟨5, 0, 0⟩).1.position = 0 →
       (v2step v2defaults d1A 20 ⟨5, 0, 0⟩).1.cash = 5)) :=
  C4_cash_position_nonneg d4A 100000 v2defaults d1A 100000 v3defaults d2A 100000
    20 ⟨5, 0, 0⟩
    (by decide) (fun j => by show (0 : ℚ) < 100; decide)
    (by decide) (by decide) (by decide) (by decide)
    (fun j => by unfold d1A; dsimp only; split_ifs <;> decide)
    (by decide) (by decide) (by decide) (by decide)
    (fun j => by unfold d2A; dsimp only; split_ifs <;> decide)
    rfl (by decide)

/-- C5 witness: the all-Hold identity instantiated on the concrete all-Hold
frames `d5A`, `d5B`, `d5C` with initial cash 100000. -/
theorem C5_all_hold_identity_inst :
    ((v1backtest d5A 100000).Forall fun r =>
      r.cash = 100000 ∧ r.position = 0 ∧ r.portfolio_value = 100000) ∧
    ((v2backtest v2defaults d5B 100000).Forall fun r =>
      r.cash = 100000 ∧ r.position = 0 ∧ r.portfolio_value = 100000) ∧
    ((v3backtest v3defaults d5C 100000).Forall fun r =>
      r.cash = 100000 ∧ r.position = 0 ∧ r.portfolio_value = 100000) :=
  C5_all_hold_identity d5A v2defaults d5B v3defaults d5C 100000
    (fun _ => rfl) (fun _ => rfl) (fun _ => rfl) (fun _ => rfl) (fun _ => rfl) (fun _ => rfl)

/-- C7 witness: the partial profit-taking statement applied at bar 51 of
`d7B` (Long 800 at cost 100, close 104, no Sell signal): the position stays
positive and the cost basis stays 100. -/
theorem C7_partial_profit_taking_inst :
    0 < (v3step v3defaults d7B 51 ⟨19960, 800, 100, 100, 100⟩).1.position ∧
    (v3step v3defaults d7B 51 ⟨19960, 800, 100, 100, 100⟩).1.avg_cost = 100 := by
  have h := C7_partial_profit_taking v3defaults d7B 51 ⟨19960, 800, 100, 100, 100⟩
    (by decide) (by decide) (by decide) rfl
  exact ⟨h.2.1, h.2.2.1⟩

end ConcreteEvaluation

end QuantBacktest
